import Mathlib

/-!
Shallow embedding of the seashell SSH server (Elara6331/seashell) for
checking its natural-language specification.

Go strings are modelled as lists of characters (`Str`); Go maps that can be
`nil` are modelled as `Option` of association lists; Go functions that can
either return an error or panic are modelled with explicit outcome types.
Each definition is translated from the named Go source function.
-/

/-- Go strings, modelled as lists of characters. -/
abbrev Str := List Char

/-- Convenience conversion from a Lean string literal to a `Str`. -/
def str (s : String) : Str := s.data

/-- Embedding of Go's `strings.Cut(s, sep)` for a one-character separator:
returns `some (before, after)` when `sep` occurs in `s` (split at the first
occurrence), and `none` when Go would report `found == false`. -/
def cut (sep : Char) : Str → Option (Str × Str)
  | [] => none
  | c :: cs =>
    if c = sep then some ([], cs)
    else
      match cut sep cs with
      | some (b, a) => some (c :: b, a)
      | none => none

/-- Embedding of `matchPattern` (internal/config/permissions.go:83-91):
a pattern equal to `*` matches everything; otherwise the pattern is cut at
the first `*` and, when one is present, matches by prefix and suffix;
otherwise it matches by literal equality. -/
def matchPattern (pattern item : Str) : Bool :=
  if pattern = ['*'] then true
  else
    match cut '*' pattern with
    | some (b, a) => b.isPrefixOf item && a.isSuffixOf item
    | none => pattern == item

/-- The per-group permission table: key (`"deny"` / `"allow"`) to pattern
list, embedding Go's `map[string][]string`. -/
abbrev GroupPerms := List (Str × List Str)

/-- A non-nil permissions map: group name to per-group table, embedding Go's
`map[string]map[string][]string`. -/
abbrev PermList := List (Str × GroupPerms)

/-- `PermissionsMap` (internal/config/permissions.go:29); `none` models a
`nil` Go map. -/
abbrev PermissionsMap := Option PermList

/-- The seashell user record (the fields permission evaluation and user
resolution read: `Name` and `Groups`). -/
structure User where
  name : Str
  groups : List Str
deriving DecidableEq

/-- The key `"deny"`. -/
def denyKey : Str := str "deny"

/-- The key `"allow"`. -/
def allowKey : Str := str "allow"

/-- The implicit group `"all"`. -/
def allKey : Str := str "all"

/-- Whether a group's deny list has a pattern matching `item`
(permissions.go:52-59). -/
def groupDenies (perms : GroupPerms) (item : Str) : Bool :=
  match List.lookup denyKey perms with
  | some denyList => denyList.any (fun d => matchPattern d item)
  | none => false

/-- Whether a group's allow list has a pattern matching `item`
(permissions.go:65-72). -/
def groupAllows (perms : GroupPerms) (item : Str) : Bool :=
  match List.lookup allowKey perms with
  | some allowList => allowList.any (fun a => matchPattern a item)
  | none => false

/-- The group loop of `IsAllowed` for one item (permissions.go:46-73): walk
the user's effective groups, stopping with `false` on the first matching
deny; otherwise accumulate `allowed` and finish with its final value
(permissions.go:75-77). -/
def checkGroups (m : PermList) (item : Str) : List Str → Bool → Bool
  | [], allowed => allowed
  | g :: gs, allowed =>
    match List.lookup g m with
    | none => checkGroups m item gs allowed
    | some perms =>
      if groupDenies perms item then false
      else checkGroups m item gs (allowed || groupAllows perms item)

/-- One item passes `IsAllowed` iff the group walk over
`u.Groups ++ ["all"]` ends allowed and undenied (permissions.go:41-77). -/
def itemAllowed (m : PermList) (u : User) (item : Str) : Bool :=
  checkGroups m item (u.groups ++ [allKey]) false

/-- Embedding of `PermissionsMap.IsAllowed` (permissions.go:36-80). A `nil`
map allows everything; otherwise every item must pass. -/
def isAllowed (pm : PermissionsMap) (u : User) (items : List Str) : Bool :=
  match pm with
  | none => true
  | some m => items.all (itemAllowed m u)

/-! ## Serial backend: mode-string parsing -/

/-- Serial parity, mirroring the five `serial.Parity` constants. -/
inductive Parity where
  | no
  | even
  | odd
  | mark
  | space
deriving DecidableEq

/-- Serial stop-bit settings, mirroring the three `serial.StopBits`
constants. -/
inductive StopBits where
  | one
  | onePointFive
  | two
deriving DecidableEq

/-- The fields of `serial.Mode` that `parseSerialMode` fills in. -/
structure SerialMode where
  dataBits : Nat
  parity : Parity
  stopBits : StopBits
deriving DecidableEq

/-- Outcome of running `parseSerialMode`: a Go runtime panic, an error
return, or a parsed mode. -/
inductive SerialOut where
  | crash
  | err (which : Nat)
  | ok (m : SerialMode)
deriving DecidableEq

/-- Error tag for the `strconv.Atoi` failure on the data-bits byte. -/
def serialErrAtoi : Nat := 0

/-- Error tag for the unknown-parity error return. -/
def serialErrParity : Nat := 1

/-- Error tag for the unsupported-stop-bits error return. -/
def serialErrStop : Nat := 2

/-- Go's `strconv.Atoi` on a one-byte string (the slice `cfg[:1]`): a digit
parses to its value, anything else is an error. -/
def atoi1 (c : Char) : Option Nat :=
  if c.isDigit then some (c.toNat - 48) else none

/-- The parity switch on `cfg[1]` (backends/serial.go). -/
def parityOf (c : Char) : Option Parity :=
  match c with
  | 'n' => some .no
  | 'e' => some .even
  | 'o' => some .odd
  | 'm' => some .mark
  | 's' => some .space
  | _ => none

/-- The stop-bits switch on `cfg[2:]` (backends/serial.go). -/
def stopOf (s : Str) : Option StopBits :=
  if s = ['1'] then some .one
  else if s = ['1', '.', '5'] then some .onePointFive
  else if s = ['2'] then some .two
  else none

/-- Embedding of `parseSerialMode` (backends/serial.go:156-192). The source
lower-cases `cfg`, then evaluates `cfg[:1]` (a panic when `cfg` is empty),
`strconv.Atoi` on that byte, `cfg[1]` (a panic when `len(cfg) < 2`), the
parity switch, and the stop-bits switch on `cfg[2:]`. -/
def parseSerialMode (cfg0 : Str) : SerialOut :=
  let cfg := cfg0.map Char.toLower
  match cfg with
  | [] => .crash
  | d :: rest =>
    match atoi1 d with
    | none => .err serialErrAtoi
    | some db =>
      match rest with
      | [] => .crash
      | p :: stop =>
        match parityOf p with
        | none => .err serialErrParity
        | some par =>
          match stopOf stop with
          | none => .err serialErrStop
          | some sb => .ok ⟨db, par, sb⟩

/-! ## Nomad backend: allocation reference resolution -/

/-- Value of a nonempty all-digit string; `none` when some character is not
a digit. -/
def digitsAcc (acc : Nat) : Str → Option Nat
  | [] => some acc
  | d :: ds => if d.isDigit then digitsAcc (acc * 10 + (d.toNat - 48)) ds else none

/-- Digit-string value: `none` for the empty string or any non-digit. -/
def digitsVal : Str → Option Nat
  | [] => none
  | s => digitsAcc 0 s

/-- Largest value of Go's 64-bit `int`. -/
def int64Max : Nat := 9223372036854775807

/-- Embedding of Go's `strconv.Atoi` on a 64-bit platform: an optional sign
followed by digits, with a range error outside `[-2^63, 2^63 - 1]`. -/
def atoi (s : Str) : Option Int :=
  match s with
  | '+' :: rest =>
    (digitsVal rest).bind (fun n => if n ≤ int64Max then some (n : Int) else none)
  | '-' :: rest =>
    (digitsVal rest).bind (fun n => if n ≤ int64Max + 1 then some (-(n : Int)) else none)
  | s => (digitsVal s).bind (fun n => if n ≤ int64Max then some (n : Int) else none)

/-- Outcome of resolving the allocation reference: a Go runtime panic or the
chosen allocation ID string. -/
inductive AllocOut where
  | crash
  | ok (id : Str)
deriving DecidableEq

/-- Embedding of the 4-token allocation-reference resolution in the Nomad
backend (internal/backends/nomad.go:172-175): `allocID := args[1]`, and when
`strconv.Atoi(args[1])` succeeds with `index < len(allocList)` the code
evaluates `allocList[index].ID` — which panics when `index` is negative. -/
def resolveAllocRef (allocIDs : List Str) (ref : Str) : AllocOut :=
  match atoi ref with
  | none => .ok ref
  | some idx =>
    if idx < (allocIDs.length : Int) then
      if idx < 0 then .crash
      else .ok (allocIDs.getD idx.toNat [])
    else .ok ref

/-! ## Authentication: user resolution and the password callback -/

/-- Embedding of `getUser` (auth.go:106-128). `ctxUser` is the user already
bound to the session context, if any; `username` is `ctx.User()`; `users` is
`cfg.Auth.Users`. The source first splits on `:`, falls back to `~`, fails
when neither splits, and otherwise returns the first configured user whose
name equals the prefix. -/
def getUser (ctxUser : Option User) (username : Str) (users : List User) : Option User :=
  match ctxUser with
  | some u => some u
  | none =>
    match
      (match cut ':' username with
       | some pr => some pr
       | none => cut '~' username) with
    | none => none
    | some (uname, _arg) => users.find? (fun u => u.name == uname)

/-- Embedding of the password callback (auth.go:38-57) with the fail2ban
verdict and the argon2id comparison against the supplied password abstracted
as `f2bAllowed` and `verify`: a blocked address or an unresolved user is
rejected before any hash comparison. -/
def passwordGate (f2bAllowed : Bool) (ctxUser : Option User) (username : Str)
    (users : List User) (verify : User → Bool) : Bool :=
  if f2bAllowed = false then false
  else
    match getUser ctxUser username users with
    | none => false
    | some u => verify u

/-! ## Router: clean-argument derivation, dispatch, middleware -/

/-- Embedding of the `cleanArg` derivation (internal/router/router.go:94-101).
`argGroupIdx` is `regex.SubexpIndex("arg")` when it is not `-1`; `subs` is the Go `matches` slice,
the non-nil result of `FindStringSubmatch` (whose entry 0 is the matched
substring); `arg` is the full session argument the regex was run on. -/
def deriveCleanArg (argGroupIdx : Option Nat) (subs : List Str) (arg : Str) : Str :=
  match argGroupIdx with
  | some idx => subs.getD idx []
  | none => if subs.length ≥ 2 then subs.getD 1 [] else arg

/-- A registered route as dispatch sees it: its name and the predicate
telling whether its compiled regex matches an argument
(internal/router/router.go:49-53, 86-90). -/
structure RRoute where
  rname : Str
  accepts : Str → Bool

/-- Dispatch over one iteration order of the router's `routes` map
(internal/router/router.go:86-114): the first route in the order whose regex
matches the argument is selected. Go map iteration order is unspecified, so
the order list is an arbitrary permutation of the stored routes. -/
def dispatchFirst (order : List RRoute) (arg : Str) : Option Str :=
  (order.find? (fun r => r.accepts arg)).map (fun r => r.rname)

/-- A session handler, given trace semantics: it receives the event log so
far and returns the log after it runs. -/
abbrev Handler := List Str → List Str

/-- A middleware (internal/router/router.go:40). -/
abbrev Middleware := Handler → Handler

/-- Embedding of the middleware-composition loop
(internal/router/router.go:103-106): `handler = middleware(handler)` over the
registration-ordered middleware list. -/
def composeMiddlewares (ms : List Middleware) (h : Handler) : Handler :=
  ms.foldl (fun handler m => m handler) h

/-- An instrumented middleware that logs entering before calling the inner
handler and leaving afterwards. -/
def traceMw (n : Str) : Middleware :=
  fun next log => next (log ++ [str "in:" ++ n]) ++ [str "out:" ++ n]

/-- An instrumented route handler that logs that it ran. -/
def baseHandler : Handler := fun log => log ++ [str "handler"]

/-! ## Proxy backend: host selection -/

/-- The error returns of the proxy host-selection code
(src/unnamed/part_003:278-311). -/
inductive ProxyErr where
  | noHosts
  | badPattern
  | noHostMatch
deriving DecidableEq

/-- Splitting a host pattern on `:` with default port `"22"`
(part_003:285-289 and 302-306). -/
def cutHostPort (p : Str) : Str × Str :=
  match cut ':' p with
  | some (a, po) => (a, po)
  | none => (p, str "22")

/-- The `hosts` loop (part_003:284-300): each pattern's address part is
glob-matched against the argument (`glob` abstracts Go's `path.Match`, with
`none` for `ErrBadPattern`); on the first match the address becomes the
argument and the loop breaks; otherwise `addr`/`portstr` keep the last
pattern's parts and `matched` stays false. -/
def hostLoop (glob : Str → Str → Option Bool) (arg addr portstr : Str) :
    List Str → Except ProxyErr (Bool × Str × Str)
  | [] => .ok (false, addr, portstr)
  | p :: ps =>
    let ap := cutHostPort p
    match glob ap.1 arg with
    | none => .error .badPattern
    | some true => .ok (true, arg, ap.2)
    | some false => hostLoop glob arg ap.1 ap.2 ps

/-- Embedding of the host-selection section of the proxy handler
(part_003:276-311). `matched` starts false; the `hosts` branch can set it,
while the `host` branch only splits the host into address and port and never
assigns `matched`; afterwards `if !matched` fails with the no-host-patterns
error. -/
def selectHost (glob : Str → Str → Option Bool) (host : Option Str)
    (hosts : List Str) (arg : Str) : Except ProxyErr (Str × Str) :=
  match
    (match host with
     | none =>
       if hosts.length = 0 then Except.error ProxyErr.noHosts
       else hostLoop glob arg [] [] hosts
     | some h => Except.ok (false, cutHostPort h)) with
  | .error e => .error e
  | .ok r => if !r.1 then .error .noHostMatch else .ok r.2

example : matchPattern (str "*") (str "anything") = true := by decide
example : matchPattern (str "secret*") (str "secretdb") = true := by decide
example : matchPattern (str "a*b*c") (str "axb*c") = true := by decide
example : matchPattern (str "abc") (str "abc") = true := by decide
example : matchPattern (str "abc") (str "abd") = false := by decide
example :
    isAllowed (some [(str "devs", [(denyKey, [str "secret*"]), (allowKey, [str "*"])])])
      ⟨str "bob", [str "devs"]⟩ [str "secretdb"] = false := by decide
example :
    isAllowed (some [(str "devs", [(allowKey, [str "*"])])])
      ⟨str "bob", [str "devs"]⟩ [str "secretdb"] = true := by decide
example : isAllowed none ⟨str "bob", []⟩ [str "x"] = true := by decide
example : isAllowed (some []) ⟨str "bob", []⟩ [str "x"] = false := by decide
example : isAllowed (some []) ⟨str "bob", []⟩ [] = true := by decide
example : parseSerialMode (str "8n1") = .ok ⟨8, .no, .one⟩ := by decide
example : parseSerialMode (str "7E1.5") = .ok ⟨7, .even, .onePointFive⟩ := by decide
example : parseSerialMode (str "8x1") = .err serialErrParity := by decide
example : parseSerialMode (str "8") = .crash := by decide
example : parseSerialMode [] = .crash := by decide
example : parseSerialMode (str "xn1") = .err serialErrAtoi := by decide
example : parseSerialMode (str "8n3") = .err serialErrStop := by decide
example : atoi (str "-1") = some (-1) := by decide
example : atoi (str "12") = some 12 := by decide
example : atoi (str "a1") = none := by decide
example : atoi [] = none := by decide
example : resolveAllocRef [str "idA", str "idB"] (str "1") = .ok (str "idB") := by decide
example : resolveAllocRef [str "idA"] (str "-1") = .crash := by decide
example : resolveAllocRef [str "idA"] (str "5") = .ok (str "5") := by decide
example : resolveAllocRef [str "idA"] (str "deadbeef") = .ok (str "deadbeef") := by decide
example : getUser none (str "justaname") [⟨str "admin", []⟩] = none := by decide
example : getUser none (str "admin:nomad.web") [⟨str "admin", []⟩] = some ⟨str "admin", []⟩ := by
  decide
example : getUser none (str "admin~nomad.web") [⟨str "admin", []⟩] = some ⟨str "admin", []⟩ := by
  decide
example : deriveCleanArg none [str "b"] (str "abc") = str "abc" := by decide
example : deriveCleanArg none [str "nomad.web", str "web"] (str "nomad.web") = str "web" := by
  decide
example : deriveCleanArg (some 2) [str "m", str "x", str "y"] (str "m") = str "y" := by decide
example :
    selectHost (fun _ _ => some false) (some (str "1.2.3.4")) [] (str "srv") =
      .error .noHostMatch := rfl
example :
    selectHost (fun p a => some (matchPattern p a)) none [str "node*", str "nas"] (str "node03") =
      .ok (str "node03", str "22") := rfl
example :
    selectHost (fun p a => some (matchPattern p a)) none [str "node*:2022"] (str "node03") =
      .ok (str "node03", str "2022") := rfl
example :
    selectHost (fun p a => some (matchPattern p a)) none [str "nas"] (str "other") =
      .error .noHostMatch := rfl
example :
    composeMiddlewares [traceMw (str "m1"), traceMw (str "m2")] baseHandler [] =
      [str "in:m2", str "in:m1", str "handler", str "out:m1", str "out:m2"] := by decide

/-! ## Theorems -/

/-- Helper for C1: once some group in the remaining group list has a deny
pattern matching the item, the group walk returns false whatever the
accumulated allow flag is. -/
theorem checkGroups_false_of_denied (m : PermList) (item : Str) :
    ∀ (gs : List Str) (allowed : Bool) (g : Str) (perms : GroupPerms),
      g ∈ gs → List.lookup g m = some perms → groupDenies perms item = true →
      checkGroups m item gs allowed = false := by
  intro gs
  induction gs with
  | nil => intro allowed g perms hg _ _; exact absurd hg (List.not_mem_nil g)
  | cons g' gs ih =>
    intro allowed g perms hg hl hd
    rcases List.mem_cons.mp hg with heq | hmem
    · subst heq
      simp [checkGroups, hl, hd]
    · cases hl' : List.lookup g' m with
      | none => simpa [checkGroups, hl'] using ih allowed g perms hmem hl hd
      | some p' =>
        cases hd' : groupDenies p' item with
        | true => simp [checkGroups, hl', hd']
        | false =>
          simpa [checkGroups, hl', hd'] using
            ih (allowed || groupAllows p' item) g perms hmem hl hd

/-- Claim C1: for every user, non-nil permission map and item list,
`IsAllowed` returns false whenever any group among the user's groups plus
the implicit group `all` has a deny pattern matching some item in the list,
regardless of any matching allow patterns on any group. -/
theorem c1_isAllowed_deny_overrides (u : User) (m : PermList) (items : List Str)
    (g item : Str) (perms : GroupPerms) (denyList : List Str) (d : Str)
    (hg : g ∈ u.groups ++ [allKey])
    (hperms : List.lookup g m = some perms)
    (hdl : List.lookup denyKey perms = some denyList)
    (hd : d ∈ denyList)
    (hmatch : matchPattern d item = true)
    (hitem : item ∈ items) :
    isAllowed (some m) u items = false := by
  have hden : groupDenies perms item = true := by
    simp only [groupDenies, hdl]
    exact List.any_eq_true.mpr ⟨d, hd, hmatch⟩
  have hitemF : itemAllowed m u item = false :=
    checkGroups_false_of_denied m item _ false g perms hg hperms hden
  simp only [isAllowed, List.all_eq_false]
  exact ⟨item, hitem, by simp [hitemF]⟩

/-- The user for the C1 witness. -/
def c1u : User := ⟨str "bob", [str "devs"]⟩

/-- The per-group table for the C1 witness: a broad allow and a narrow
deny on the same group. -/
def c1perms : GroupPerms := [(denyKey, [str "secret*"]), (allowKey, [str "*"])]

/-- The permissions map for the C1 witness. -/
def c1m : PermList := [(str "devs", c1perms)]

/-- Witness for C1: a user with a matching broad allow is still refused
because a deny pattern matches one of the items. -/
theorem c1_witness : isAllowed (some c1m) c1u [str "db", str "secretdb"] = false :=
  c1_isAllowed_deny_overrides c1u c1m [str "db", str "secretdb"] (str "devs")
    (str "secretdb") c1perms [str "secret*"] (str "secret*")
    (by decide) (by decide) (by decide) (by decide) (by decide) (by decide)

/-- Claim C2 (code bug): in the proxy backend, whenever the route settings
contain `host`, the handler splits it into address and port but never sets
`matched`, so it always returns the no-host-patterns error instead of
connecting — for every glob matcher, every `hosts` value, every `host`
string and every argument. -/
theorem c2_proxy_host_branch_always_fails (glob : Str → Str → Option Bool)
    (hosts : List Str) (h arg : Str) :
    selectHost glob (some h) hosts arg = .error .noHostMatch := rfl

/-- Counterexample for C3: the claim predicts that a pattern with two or
more stars matches only by literal equality, but the code cuts at the first
star, so the pattern matches a different item by prefix and suffix. -/
theorem c3_counterexample :
    matchPattern (str "a*b*c") (str "axb*c") = true ∧ str "a*b*c" ≠ str "axb*c" := by
  decide

/-- Claim C3 as amended: a pattern equal to star matches everything; a
pattern without a star matches exactly by equality; every other pattern —
with one star or several — is cut at the FIRST star into before and after
and matches an item iff before is a prefix and after (which may itself
contain stars, matched literally) is a suffix of the item. -/
theorem c3_matchPattern_cases (p s : Str) :
    (p = ['*'] → matchPattern p s = true) ∧
    (cut '*' p = none → (matchPattern p s = true ↔ p = s)) ∧
    (∀ b a, p ≠ ['*'] → cut '*' p = some (b, a) →
      matchPattern p s = (b.isPrefixOf s && a.isSuffixOf s)) := by
  refine ⟨?_, ?_, ?_⟩
  · intro hp
    simp [matchPattern, hp]
  · intro hcut
    have hp : p ≠ ['*'] := by
      intro h
      subst h
      simp [cut] at hcut
    simp [matchPattern, hp, hcut]
  · intro b a hp hcut
    simp [matchPattern, hp, hcut]

/-- Witness for C3: the single-star case evaluated at a concrete pattern
and item. -/
theorem c3_witness :
    matchPattern (str "a*c") (str "abc") =
      (List.isPrefixOf (str "a") (str "abc") && List.isSuffixOf (str "c") (str "abc")) :=
  (c3_matchPattern_cases (str "a*c") (str "abc")).2.2 (str "a") (str "c")
    (by decide) (by decide)

/-- Claim C4 (code bug): the serial mode parser is claimed never to crash,
but on the one-character string "8" (and on the empty string) the source
indexes past the end of the string and panics instead of returning an
error; a grammatical mode string such as "8n1" parses as claimed. -/
theorem c4_parseSerialMode_crash :
    parseSerialMode (str "8") = .crash ∧ parseSerialMode [] = .crash ∧
      parseSerialMode (str "8n1") = .ok ⟨8, .no, .one⟩ := by
  decide

/-- Counterexample for C5: the regex "b" run on the session argument "abc"
yields the submatch list ["b"] and defines no capture groups, so the claim
predicts the handler receives the matched substring "b"; the code instead
passes the whole original argument "abc". -/
theorem c5_counterexample :
    deriveCleanArg none [str "b"] (str "abc") = str "abc" ∧ str "abc" ≠ str "b" := by
  decide

/-- Claim C5 as amended: the backend argument is the capture of the group
named arg when the regex defines one, else the capture of group 1 when the
regex has at least one capture group, else the ENTIRE original session
argument (not merely the substring the regex matched). -/
theorem c5_deriveCleanArg_cases (g : Option Nat) (subs : List Str) (arg : Str) :
    (∀ i, g = some i → deriveCleanArg g subs arg = subs.getD i []) ∧
    (g = none → 2 ≤ subs.length → deriveCleanArg g subs arg = subs.getD 1 []) ∧
    (g = none → subs.length < 2 → deriveCleanArg g subs arg = arg) := by
  refine ⟨?_, ?_, ?_⟩
  · intro i hi
    subst hi
    rfl
  · intro hg hlen
    subst hg
    simp only [deriveCleanArg]
    rw [if_pos hlen]
  · intro hg hlen
    subst hg
    simp only [deriveCleanArg]
    rw [if_neg (by omega)]

/-- Witness for C5: the no-capture-group case evaluated at a concrete
submatch list and argument. -/
theorem c5_witness : deriveCleanArg none [str "nomatch"] (str "abc") = str "abc" :=
  (c5_deriveCleanArg_cases none [str "nomatch"] (str "abc")).2.2 rfl (by decide)

/-- A route that accepts arguments starting with "a" (as the pattern
"a.*" would). -/
def cRouteA : RRoute := ⟨str "A", fun s => (str "a").isPrefixOf s⟩

/-- A route that accepts every argument (as the pattern ".*" would). -/
def cRouteB : RRoute := ⟨str "B", fun _ => true⟩

/-- Claim C6 (code bug): the router stores routes in a hash-keyed Go map
and dispatches by iterating it, and map iteration order is unspecified, so
two iteration orders of the same two overlapping routes select different
routes for the same argument — dispatch is not deterministic. -/
theorem c6_dispatch_order_dependent :
    dispatchFirst [cRouteA, cRouteB] (str "abc") = some (str "A") ∧
    dispatchFirst [cRouteB, cRouteA] (str "abc") = some (str "B") ∧
    some (str "A") ≠ some (str "B") ∧
    List.Perm [cRouteB, cRouteA] [cRouteA, cRouteB] := by
  refine ⟨rfl, rfl, by decide, ?_⟩
  exact List.Perm.swap cRouteA cRouteB []

/-- Counterexample for C7: with middlewares registered in the order m1 then
m2, the composed handler runs m2 first and m1 innermost, not the
first-registered middleware outermost as claimed. -/
theorem c7_counterexample :
    composeMiddlewares [traceMw (str "m1"), traceMw (str "m2")] baseHandler [] =
        [str "in:m2", str "in:m1", str "handler", str "out:m1", str "out:m2"] ∧
      [str "in:m2", str "in:m1", str "handler", str "out:m1", str "out:m2"] ≠
        [str "in:m1", str "in:m2", str "handler", str "out:m2", str "out:m1"] := by
  refine ⟨rfl, by decide⟩

/-- An instrumented handler shape used to compute middleware traces: it
appends the fixed events `pre`, then the handler event, then `post`. -/
def shapeHandler (pre post : List Str) : Handler :=
  fun log => log ++ pre ++ [str "handler"] ++ post

/-- Helper for C7: composing any list of instrumented middlewares around a
shape handler produces the trace with the registration list reversed on the
way in. -/
theorem composeMiddlewares_traceMw_aux (ns : List Str) :
    ∀ (pre post log : List Str),
      composeMiddlewares (ns.map traceMw) (shapeHandler pre post) log =
        log ++ (ns.reverse.map (fun n => str "in:" ++ n)) ++ pre ++
          [str "handler"] ++ post ++ ns.map (fun n => str "out:" ++ n) := by
  induction ns with
  | nil =>
    intro pre post log
    simp [composeMiddlewares, shapeHandler]
  | cons n ns ih =>
    intro pre post log
    have hstep : composeMiddlewares ((n :: ns).map traceMw) (shapeHandler pre post) log
        = composeMiddlewares (ns.map traceMw) (traceMw n (shapeHandler pre post)) log := rfl
    have heq : traceMw n (shapeHandler pre post) =
        shapeHandler ((str "in:" ++ n) :: pre) (post ++ [str "out:" ++ n]) := by
      funext lg
      simp [traceMw, shapeHandler]
    rw [hstep, heq, ih]
    simp

/-- Claim C7 as amended: for every sequence of middlewares registered with
Use, the router composes them so that the LAST-registered middleware
executes outermost — it runs first on the way in and last on the way out —
and the first-registered middleware is innermost, immediately wrapping the
route handler. -/
theorem c7_last_registered_outermost (ns : List Str) :
    composeMiddlewares (ns.map traceMw) baseHandler [] =
      ns.reverse.map (fun n => str "in:" ++ n) ++ [str "handler"] ++
        ns.map (fun n => str "out:" ++ n) := by
  have hbase : baseHandler = shapeHandler [] [] := by
    funext log
    simp [baseHandler, shapeHandler]
  rw [hbase, composeMiddlewares_traceMw_aux]
  simp

/-- Claim C8 (code bug): in the 4-token Nomad case, an allocRef that parses
as a negative integer passes the bounds test and panics when indexing the
allocation list; a nonnegative in-range integer selects the allocation at
that position, while an out-of-range integer is treated as an allocation ID
rather than an index. -/
theorem c8_allocRef_negative_crash :
    resolveAllocRef [str "c0b2d3a1"] (str "-1") = .crash ∧
      resolveAllocRef [str "c0b2d3a1", str "e4f5a6b7"] (str "1") = .ok (str "e4f5a6b7") ∧
      resolveAllocRef [str "c0b2d3a1"] (str "7") = .ok (str "7") := by
  decide

/-- Helper for C9: when the separator character does not occur in the
string, Cut reports not-found. -/
theorem cut_eq_none_of_not_mem {sep : Char} {s : Str} (h : sep ∉ s) :
    cut sep s = none := by
  induction s with
  | nil => rfl
  | cons c cs ih =>
    have hne : c ≠ sep := fun hc => h (hc ▸ List.mem_cons_self c cs)
    have h2 : sep ∉ cs := fun hm => h (List.mem_cons_of_mem _ hm)
    simp [cut, hne, ih h2]

/-- Claim C9: for every SSH username containing neither a colon nor a
tilde, user resolution with no user yet bound to the context fails, and the
password callback therefore rejects before any credential check, whatever
verification function would have been applied. -/
theorem c9_getUser_fails_without_separator (username : Str) (users : List User)
    (f2bAllowed : Bool) (verify : User → Bool)
    (hc : ':' ∉ username) (ht : '~' ∉ username) :
    getUser none username users = none ∧
      passwordGate f2bAllowed none username users verify = false := by
  have hg : getUser none username users = none := by
    simp [getUser, cut_eq_none_of_not_mem hc, cut_eq_none_of_not_mem ht]
  refine ⟨hg, ?_⟩
  cases f2bAllowed with
  | false => simp [passwordGate]
  | true => simp [passwordGate, hg]

/-- Witness for C9: the username "justaname" resolves to no user and is
rejected even by a verifier that accepts everything. -/
theorem c9_witness :
    getUser none (str "justaname") [⟨str "admin", [str "admins"]⟩] = none ∧
      passwordGate true none (str "justaname") [⟨str "admin", [str "admins"]⟩]
        (fun _ => true) = false :=
  c9_getUser_fails_without_separator (str "justaname") [⟨str "admin", [str "admins"]⟩]
    true (fun _ => true) (by decide) (by decide)

/-- Claim C10: for every user and every permission map — nil, empty, or
populated — IsAllowed with an empty item list returns true. -/
theorem c10_isAllowed_empty_items (pm : PermissionsMap) (u : User) :
    isAllowed pm u [] = true := by
  cases pm <;> simp [isAllowed]
